import Mathlib

/-!
Verification of the asynchronous job-orchestration engine of the SFDC
deduplication service (FastAPI `main.py` plus `agent/dedup_agent.py` and
`agent/langsmith_wrapper.py`).

The Python code is shallowly embedded:

* `JobManager.jobs` (a Python dict of mutable job dicts) is modelled as an
  association list `Store := List (String × JobRecord)`; `update_job`'s
  shallow top-level merge is modelled by `JobUpdate`/`applyUpdate`
  (a field present in the update replaces the stored field wholesale).
* Wall-clock data (`created_at`, `updated_at`, timestamps inside payloads,
  `email_last_updated_date__c`) and the `phase_details` debug payload are
  omitted: no claim mentions them.
* Collaborator calls (Salesforce connect/query, Claude classification) are
  supplied as data in a `WorkflowEnv`, mirroring the spec's "external
  collaborators, interfaces only" scoping; the orchestration logic around
  them is translated from the source.
* Reference (aliasing) semantics of the job dicts, which only matters for
  the `list_jobs` snapshot claim, is modelled separately in the `RefModel`
  namespace with an explicit heap of record addresses.
-/

/-- `progress` dict of a job; replaced wholesale on each write.  The failure
path writes a dict holding only `phase` and `message`, hence the optional
step counters. -/
structure Progress where
  phase : String
  currentStep : Option Nat
  totalSteps : Option Nat
  message : String
deriving DecidableEq, Repr

/-- One entry of `metrics["errors"]` as appended by the Salesforce update
phase: `{'contact_id': ..., 'error': ...}`. -/
structure MutError where
  contactId : String
  errMsg : String
deriving DecidableEq, Repr

/-- The `metrics` accumulator of `run_agent_workflow` (and the job's stored
`metrics` dict); `start_time`/`end_time` wall-clock entries omitted. -/
structure Metrics where
  totalContacts : Nat
  totalOwners : Nat
  emailsValidated : Nat
  duplicatesFound : Nat
  sfdcUpdates : Nat
  errors : List MutError
deriving DecidableEq, Repr

/-- A Salesforce contact record as used by the duplicate-marking step.
Fields that Salesforce returns as `null` are modelled as `""`, matching
Python truthiness tests (`if contact.get('Phone'):`). -/
structure Contact where
  cid : String
  firstName : String
  lastName : String
  email : String
  phone : String
  title : String
  emailBouncedReason : String
deriving DecidableEq, Repr

/-- A duplicate pair produced by the detection phase. -/
structure DupPair where
  contactId1 : String
  contactId2 : String
  confidence : String
  reasoning : String
  accountName : String
deriving DecidableEq, Repr

/-- Per-contact summary inside a marking decision. -/
structure DecisionContact where
  cid : String
  name : String
  email : String
  phone : String
  title : String
  justification : String
  suggestedAction : String
deriving DecidableEq, Repr

/-- One element of `marking_result["decisions"]`. -/
structure Decision where
  accountName : String
  confidence : String
  reasoning : String
  canonicalName : String
  contact1 : DecisionContact
  contact2 : DecisionContact
deriving DecidableEq, Repr

/-- A per-entity Salesforce update payload.  Email-validation updates and
duplicate-marking updates are both carried by this type; fields unused by a
given producer are `""`/`false`.  The `email_last_updated_date__c`
wall-clock field is omitted. -/
structure UpdateReq where
  uid : String
  emailStatus : String
  duplicateGroupName : String
  duplicateJustification : String
  suggestedAction : String
  duplicateReviewed : Bool
deriving DecidableEq, Repr

/-- The stored `approval_decision` dict (timestamp omitted). -/
structure ApprovalDecision where
  approved : Bool
  rejectedPairs : List String
deriving DecidableEq, Repr

/-- The stored `pending_approval` dict.  The second checkpoint writes no
`decisions` key; that is modelled as `decisions = []`. -/
structure PendingApproval where
  stage : String
  totalUpdates : Nat
  decisions : List Decision
  message : String
deriving DecidableEq, Repr

/-- The dict returned by `run_agent_workflow`: `status = "success"` with
`duplicate_pairs_found`, or `status = "cancelled"` with a message.  The
`cost_summary`/`reports_dir` bookkeeping entries are omitted. -/
structure WorkflowResult where
  status : String
  message : Option String
  metrics : Metrics
  duplicatePairsFound : Option Nat
deriving DecidableEq, Repr

/-- The job configuration captured at `POST /api/dedup/start`. -/
structure JobConfig where
  batchSize : Option Nat
  ownerFilter : Option (List String)
  autoApprove : Bool
deriving DecidableEq, Repr

/-- One job dict of `JobManager.jobs` (timestamps and `phase_details`
omitted, see the module comment). -/
structure JobRecord where
  jobId : String
  status : String
  config : JobConfig
  progress : Progress
  metrics : Metrics
  pendingApproval : Option PendingApproval
  approvalDecision : Option ApprovalDecision
  results : Option WorkflowResult
  error : Option String
deriving DecidableEq, Repr

/-- A partial top-level update dict as passed to `JobManager.update_job`.
`none` means the key is absent from the update; a present key replaces the
stored field wholesale (`dict.update` shallow merge). -/
structure JobUpdate where
  status : Option String := none
  progress : Option Progress := none
  metrics : Option Metrics := none
  pendingApproval : Option (Option PendingApproval) := none
  approvalDecision : Option (Option ApprovalDecision) := none
  results : Option (Option WorkflowResult) := none
  error : Option (Option String) := none

/-- `self.jobs[job_id].update(updates)`: shallow merge of the present keys. -/
def applyUpdate (j : JobRecord) (u : JobUpdate) : JobRecord :=
  { j with
    status := u.status.getD j.status
    progress := u.progress.getD j.progress
    metrics := u.metrics.getD j.metrics
    pendingApproval := u.pendingApproval.getD j.pendingApproval
    approvalDecision := u.approvalDecision.getD j.approvalDecision
    results := u.results.getD j.results
    error := u.error.getD j.error }

/-- The job store `JobManager.jobs`, keyed by job id. -/
abbrev Store := List (String × JobRecord)

/-- `JobManager.get_job`: lookup by id (first match). -/
def get_job : Store → String → Option JobRecord
  | [], _ => none
  | p :: rest, i => if p.1 = i then some p.2 else get_job rest i

/-- `job_id in self.jobs`. -/
def hasJob (s : Store) (i : String) : Bool := (get_job s i).isSome

/-- The store with the entry of job `i` merged with `u`. -/
def writeJob (s : Store) (i : String) (u : JobUpdate) : Store :=
  s.map fun p => if p.1 = i then (p.1, applyUpdate p.2 u) else p

/-- `JobManager.update_job`: raises (here: `none`) when the id is unknown,
otherwise shallow-merges the update into the stored dict. -/
def update_job (s : Store) (i : String) (u : JobUpdate) : Option Store :=
  if hasJob s i then some (writeJob s i u) else none

/-- The fresh job dict written by `JobManager.create_job`. -/
def initialJob (jobId : String) (cfg : JobConfig) : JobRecord :=
  { jobId := jobId
    status := "pending"
    config := cfg
    progress :=
      { phase := "initializing", currentStep := some 0, totalSteps := some 7
        message := "Job created" }
    metrics :=
      { totalContacts := 0, totalOwners := 0, emailsValidated := 0
        duplicatesFound := 0, sfdcUpdates := 0, errors := [] }
    pendingApproval := none
    approvalDecision := none
    results := none
    error := none }

/-- `JobManager.create_job` (the id is a fresh uuid in the source). -/
def create_job (s : Store) (jobId : String) (cfg : JobConfig) : Store :=
  s ++ [(jobId, initialJob jobId cfg)]

theorem get_job_writeJob_self (s : Store) (i : String) (u : JobUpdate) :
    get_job (writeJob s i u) i = (get_job s i).map (fun r => applyUpdate r u) := by
  induction s with
  | nil => rfl
  | cons p rest ih =>
    by_cases h : p.1 = i <;> simp [writeJob, get_job, h] at ih ⊢ <;> exact ih

theorem get_job_writeJob_ne (s : Store) (i j : String) (u : JobUpdate)
    (h : j ≠ i) : get_job (writeJob s i u) j = get_job s j := by
  induction s with
  | nil => rfl
  | cons p rest ih =>
    simp only [writeJob, List.map_cons, get_job] at ih ⊢
    by_cases hp : p.1 = i
    · subst hp
      simp [Ne.symm h, ih]
    · by_cases hq : p.1 = j <;> simp [hp, hq, h, ih]

theorem hasJob_writeJob (s : Store) (i j : String) (u : JobUpdate) :
    hasJob (writeJob s i u) j = hasJob s j := by
  by_cases h : j = i
  · subst h; simp [hasJob, get_job_writeJob_self]
  · simp [hasJob, get_job_writeJob_ne s i j u h]

theorem update_job_eq_some_iff {s : Store} {i : String} {u : JobUpdate} {t : Store} :
    update_job s i u = some t ↔ hasJob s i = true ∧ t = writeJob s i u := by
  unfold update_job
  by_cases h : hasJob s i <;> simp [h, eq_comm]

theorem update_job_isSome {s : Store} {i : String} {u : JobUpdate} :
    (update_job s i u).isSome = hasJob s i := by
  unfold update_job
  by_cases h : hasJob s i <;> simp [h]

theorem hasJob_update_jobD (s : Store) (i j : String) (u : JobUpdate) :
    hasJob ((update_job s i u).getD s) j = hasJob s j := by
  unfold update_job
  by_cases h : hasJob s i <;> simp [h, hasJob_writeJob]

theorem get_job_append (s t : Store) (i : String) :
    get_job (s ++ t) i = ((get_job s i).rec (get_job t i) (fun j => some j)) := by
  induction s with
  | nil => simp [get_job]
  | cons p rest ih =>
    by_cases h : p.1 = i <;> simp [get_job, h, ih]

/-- Python `str.capitalize()`: first character upper-cased, rest lower-cased
(ASCII suffices for the generated texts). -/
def pyCapitalize (s : String) : String :=
  match s.data with
  | [] => ""
  | c :: cs => String.mk (c.toUpper :: cs.map Char.toLower)

/-- Python `str.lower()` (ASCII). -/
def pyLower (s : String) : String := String.mk (s.data.map Char.toLower)

/-- Python slicing `s[:n]` on a string. -/
def pyTake (n : Nat) (s : String) : String := String.mk (s.data.take n)

/-- Python `str.strip()`: whitespace dropped from both ends. -/
def pyStrip (s : String) : String :=
  String.mk
    ((((s.data.dropWhile Char.isWhitespace).reverse.dropWhile Char.isWhitespace).reverse))

/-- Python `f"{first} {last}".strip()` as used throughout the marking code. -/
def fullName (c : Contact) : String := pyStrip (c.firstName ++ " " ++ c.lastName)

/-- `determine_canonical_name` of `traced_duplicate_marking`: name length
plus 10 for a phone and 10 for a title; ties keep the first name. -/
def determine_canonical_name (c1 c2 : Contact) : String :=
  let name1 := fullName c1
  let name2 := fullName c2
  let score1 : Nat :=
    name1.length + (if c1.phone ≠ "" then 10 else 0) + (if c1.title ≠ "" then 10 else 0)
  let score2 : Nat :=
    name2.length + (if c2.phone ≠ "" then 10 else 0) + (if c2.title ≠ "" then 10 else 0)
  if score1 ≥ score2 then name1 else name2

/-- `generate_justification` of `traced_duplicate_marking`. -/
def generate_justification (contact other : Contact) (isSuggestedDelete : Bool) : String :=
  let name1 := fullName contact
  let name2 := fullName other
  let hasPhone := contact.phone ≠ ""
  let hasTitle := contact.title ≠ ""
  let isBounced := contact.emailBouncedReason ≠ ""
  let otherHasPhone := other.phone ≠ ""
  let otherHasTitle := other.title ≠ ""
  let justification :=
    if isSuggestedDelete then
      let parts : List String :=
        (if name1 ≠ name2 then
          [if pyLower name1 = pyLower name2 then
            "Name capitalization differs from \x27" ++ name2 ++ "\x27"
          else
            "Likely typo/variant of \x27" ++ name2 ++ "\x27"]
        else [])
      let missing : List String :=
        (if ¬hasPhone ∧ otherHasPhone then ["phone"] else []) ++
        (if ¬hasTitle ∧ otherHasTitle then ["title"] else [])
      let parts := parts ++
        (if missing ≠ [] then ["missing " ++ String.intercalate " and " missing] else [])
      let parts := parts ++ (if isBounced then ["email bounced"] else [])
      let parts := if parts = [] then ["less complete than other record"] else parts
      pyCapitalize (String.intercalate "; " parts)
    else
      let hasData : List String :=
        (if hasPhone then ["phone"] else []) ++ (if hasTitle then ["title"] else [])
      let parts : List String :=
        (if hasData ≠ [] then ["Has " ++ String.intercalate " and " hasData] else [])
      let parts := parts ++
        (if name1 ≠ name2 ∧ name1.length > name2.length then ["more complete name"] else [])
      let parts := parts ++ (if ¬isBounced then ["valid email"] else [])
      let parts := if parts = [] then ["More complete record"] else parts
      String.intercalate "; " parts
  pyTake 255 justification

/-- The completeness score `score1` computed by `traced_duplicate_marking`:
+1 for a phone, +1 for a title, −2 for a bounce reason, +1 when this
contact's full name is strictly longer than the other's. -/
def markScore (c other : Contact) : Int :=
  (if c.phone ≠ "" then 1 else 0) + (if c.title ≠ "" then 1 else 0)
  - (if c.emailBouncedReason ≠ "" then 2 else 0)
  + (if (fullName c).length > (fullName other).length then 1 else 0)

/-- The `Suggested_Action__c` pair assigned by `traced_duplicate_marking`:
the lower-scored contact is deleted, the higher-scored is kept, a tie means
a merge of both. -/
def suggestedActions (c1 c2 : Contact) : String × String :=
  if markScore c1 c2 < markScore c2 c1 then
    ("Delete", "Keep - Not a duplicate")
  else if markScore c2 c1 < markScore c1 c2 then
    ("Keep - Not a duplicate", "Delete")
  else
    ("Merge into other record", "Merge into other record")

/-- The first update payload written for a marked pair. -/
def markUpdate1 (c1 c2 : Contact) : UpdateReq :=
  { uid := c1.cid
    emailStatus := "Duplicate"
    duplicateGroupName := determine_canonical_name c1 c2
    duplicateJustification :=
      generate_justification c1 c2 (decide ((suggestedActions c1 c2).1 = "Delete"))
    suggestedAction := (suggestedActions c1 c2).1
    duplicateReviewed := false }

/-- The second update payload written for a marked pair. -/
def markUpdate2 (c1 c2 : Contact) : UpdateReq :=
  { uid := c2.cid
    emailStatus := "Duplicate"
    duplicateGroupName := determine_canonical_name c1 c2
    duplicateJustification :=
      generate_justification c2 c1 (decide ((suggestedActions c1 c2).2 = "Delete"))
    suggestedAction := (suggestedActions c1 c2).2
    duplicateReviewed := false }

/-- The per-contact decision summary (`Phone`/`Title` are always present in
the extracted records, so the `'N/A'` dict default never fires). -/
def markDecisionContact (c _other : Contact) (action : String) (justification : String) :
    DecisionContact :=
  { cid := c.cid, name := fullName c, email := c.email, phone := c.phone
    title := c.title, justification := justification, suggestedAction := action }

/-- The decision dict recorded for a marked pair. -/
def markDecision (pair : DupPair) (c1 c2 : Contact) : Decision :=
  { accountName := pair.accountName
    confidence := pair.confidence
    reasoning := pair.reasoning
    canonicalName := determine_canonical_name c1 c2
    contact1 := markDecisionContact c1 c2 (suggestedActions c1 c2).1
      (generate_justification c1 c2 (decide ((suggestedActions c1 c2).1 = "Delete")))
    contact2 := markDecisionContact c2 c1 (suggestedActions c1 c2).2
      (generate_justification c2 c1 (decide ((suggestedActions c1 c2).2 = "Delete"))) }

/-- One loop iteration of `traced_duplicate_marking`: a pair whose two ids
both resolve in `contacts_dict` appends two updates and one decision; an
unresolvable pair is skipped (`continue`). -/
def markStep (contacts : String → Option Contact)
    (acc : List UpdateReq × List Decision) (pair : DupPair) :
    List UpdateReq × List Decision :=
  match contacts pair.contactId1, contacts pair.contactId2 with
  | some c1, some c2 =>
    (acc.1 ++ [markUpdate1 c1 c2, markUpdate2 c1 c2], acc.2 ++ [markDecision pair c1 c2])
  | _, _ => acc

/-- Result dict of `traced_duplicate_marking`. -/
structure MarkingResult where
  status : String
  totalUpdates : Nat
  duplicateGroups : Nat
  updates : List UpdateReq
  decisions : List Decision
deriving DecidableEq, Repr

/-- `traced_duplicate_marking` (= `tools.mark_duplicates_for_review`). -/
def traced_duplicate_marking (pairs : List DupPair) (contacts : String → Option Contact) :
    MarkingResult :=
  let ud := pairs.foldl (markStep contacts) ([], [])
  { status := "success"
    totalUpdates := ud.1.length
    duplicateGroups := ud.2.length
    updates := ud.1
    decisions := ud.2 }

/-- One element of the list returned by `sf.bulk.Contact.update`. -/
structure ItemResult where
  success : Bool
  errText : String
deriving DecidableEq, Repr

/-- Result dict of `traced_salesforce_update` (the success path; total sink
loss raises inside the wrapped `try` and yields a result without an
`errors` key, a path no claim exercises). -/
structure UpdateResult where
  status : String
  message : Option String
  successCount : Nat
  errorCount : Nat
  errors : List MutError
deriving DecidableEq, Repr

/-- Batch slicing with explicit fuel (the fuel, instantiated with the list
length, only makes the recursion structural; each step consumes at least
one element, so the `[l]` fuse is never reached). -/
def toBatchesF (bs : Nat) : Nat → List UpdateReq → List (List UpdateReq)
  | _, [] => []
  | 0, l => [l]
  | fuel + 1, x :: xs => (x :: xs.take (bs - 1)) :: toBatchesF bs fuel (xs.drop (bs - 1))

/-- `range(0, len(updates), batch_size)` slicing: the list cut into batches
(step `max 1 batchSize`; the source always passes the default 200). -/
def toBatches (bs : Nat) (l : List UpdateReq) : List (List UpdateReq) :=
  toBatchesF bs l.length l

/-- Per-result bookkeeping inside a batch: a success bumps the counter, a
failure appends `{'contact_id', 'error'}` to the running error list. -/
def batchStep (sfSend : UpdateReq → ItemResult)
    (acc : Nat × List MutError) (req : UpdateReq) : Nat × List MutError :=
  let r := sfSend req
  if r.success then (acc.1 + 1, acc.2)
  else (acc.1, acc.2 ++ [{ contactId := req.uid, errMsg := r.errText }])

/-- `traced_salesforce_update` (= `tools.update_salesforce_contacts`) with
the per-item sink outcomes supplied by `sfSend`.  Note the result stores
only `errors[:10]` while `error_count` is the full count. -/
def traced_salesforce_update (sfSend : UpdateReq → ItemResult)
    (updates : List UpdateReq) (batchSize : Nat) : UpdateResult :=
  if updates = [] then
    { status := "success", message := some "No updates needed"
      successCount := 0, errorCount := 0, errors := [] }
  else
    let sc :=
      (toBatches batchSize updates).foldl
        (fun acc batch => batch.foldl (batchStep sfSend) acc) (0, [])
    { status := if sc.2 = [] then "success" else "partial"
      message := none
      successCount := sc.1
      errorCount := sc.2.length
      errors := sc.2.take 10 }

/-- The metrics assignment after the update phase in `run_agent_workflow`:
`metrics["sfdc_updates"] = success_count`, and `metrics["errors"]` is
overwritten with the result's (capped) error list when any error occurred. -/
def applyMutationMetrics (m : Metrics) (ur : UpdateResult) : Metrics :=
  let m := { m with sfdcUpdates := ur.successCount }
  if ur.errorCount > 0 then { m with errors := ur.errors } else m

/-- Outcome of `tools.extract_contacts` consumed by the metrics. -/
structure ExtractionData where
  totalContacts : Nat
  ownerCount : Nat
deriving DecidableEq, Repr

/-- Outcome of `tools.validate_emails` (never fails in the source). -/
structure ValidationData where
  totalProcessed : Nat
  updates : List UpdateReq
deriving DecidableEq, Repr

/-- External collaborator outcomes consumed by one workflow run (spec §2:
collaborators are out of scope and consumed via narrow interfaces).
`approval1`/`approval2` are the booleans returned by the two
`wait_for_approval` calls; their internal semantics is verified separately
on `wait_for_approval` itself. -/
structure WorkflowEnv where
  connectResult : Except String Unit
  extractionResult : Except String ExtractionData
  validation : ValidationData
  duplicatePairs : List DupPair
  contacts : String → Option Contact
  approval1 : Bool
  approval2 : Bool
  sfSend : UpdateReq → ItemResult

/-- Result triple of a workflow run: the store after the run's own
`update_job` calls, the trace of executed collaborator tools (model
instrumentation), and the returned dict or the raised exception. -/
abbrev WfOut := Store × List String × Except String WorkflowResult

/-- The `update_progress` helper of `run_agent_workflow`: a progress-only
`update_job` whose exceptions are swallowed (`except: print`). -/
def update_progress (s : Store) (jobId phase : String) (step : Nat) (msg : String) : Store :=
  (update_job s jobId
    { progress := some
        { phase := phase, currentStep := some step, totalSteps := some 7, message := msg } }).getD s

/-- The dict returned on a rejected or timed-out checkpoint. -/
def cancelledResult (m : Metrics) : WorkflowResult :=
  { status := "cancelled", message := some "Job cancelled by user"
    metrics := m, duplicatePairsFound := none }

/-- Phase 7: report generation and the success return value. -/
def finishReports (jobId : String) (s : Store) (execd : List String)
    (m : Metrics) (nPairs : Nat) : WfOut :=
  let s := update_progress s jobId "phase_7_reports" 7 "Generating reports..."
  let execd := execd ++ ["generate_reports"]
  (s, execd,
    .ok { status := "success", message := none, metrics := m, duplicatePairsFound := some nPairs })

/-- The Salesforce mutation call plus the metrics assignment, followed by
phase 7. -/
def runMutationAndFinish (jobId : String) (env : WorkflowEnv) (s : Store)
    (execd : List String) (m : Metrics) (allUpdates : List UpdateReq) (nPairs : Nat) : WfOut :=
  let ur := traced_salesforce_update env.sfSend allUpdates 200
  let execd := execd ++ ["update_salesforce_contacts"]
  let m := applyMutationMetrics m ur
  finishReports jobId s execd m nPairs

/-- Phase 6 of `run_agent_workflow`: skip when there is nothing to update;
otherwise the pre-mutation checkpoint (unless `auto_approve`), then the
mutation, then phase 7.  A rejected or timed-out checkpoint returns the
cancelled dict without touching the mutation sink. -/
def phase6 (jobId : String) (cfg : JobConfig) (env : WorkflowEnv) (s : Store)
    (execd : List String) (m : Metrics) (allUpdates : List UpdateReq) (nPairs : Nat) : WfOut :=
  if allUpdates.isEmpty then finishReports jobId s execd m nPairs
  else
    let s := update_progress s jobId "phase_6_update" 6
      ("Updating " ++ toString allUpdates.length ++ " contacts in Salesforce...")
    if cfg.autoApprove then runMutationAndFinish jobId env s execd m allUpdates nPairs
    else
      match update_job s jobId
        { status := some "awaiting_approval"
          pendingApproval := some (some
            { stage := "salesforce_update", totalUpdates := allUpdates.length
              decisions := []
              message := "Ready to update " ++ toString allUpdates.length ++
                " contacts in Salesforce" }) } with
      | none => (s, execd, .error ("Job " ++ jobId ++ " not found"))
      | some s =>
        if env.approval2 then runMutationAndFinish jobId env s execd m allUpdates nPairs
        else (s, execd, .ok (cancelledResult m))

/-- Phase 5 of `run_agent_workflow`: duplicate marking and, unless
`auto_approve`, the duplicate-marking checkpoint.  A rejected or timed-out
checkpoint returns the cancelled dict; nothing after it runs. -/
def phase5 (jobId : String) (cfg : JobConfig) (env : WorkflowEnv) (s : Store)
    (execd : List String) (m : Metrics) (validationUpdates : List UpdateReq)
    (pairs : List DupPair) : WfOut :=
  if pairs.isEmpty then phase6 jobId cfg env s execd m validationUpdates pairs.length
  else
    let marking := traced_duplicate_marking pairs env.contacts
    let execd := execd ++ ["mark_duplicates_for_review"]
    if cfg.autoApprove then
      phase6 jobId cfg env s execd m (validationUpdates ++ marking.updates) pairs.length
    else
      let s := update_progress s jobId "awaiting_approval" 5
        "Awaiting human approval for duplicate marking..."
      match update_job s jobId
        { status := some "awaiting_approval"
          pendingApproval := some (some
            { stage := "duplicate_marking", totalUpdates := marking.totalUpdates
              decisions := marking.decisions
              message := "Ready to mark " ++ toString marking.totalUpdates ++
                " contacts as duplicates" }) } with
      | none => (s, execd, .error ("Job " ++ jobId ++ " not found"))
      | some s =>
        if env.approval1 then
          phase6 jobId cfg env s execd m (validationUpdates ++ marking.updates) pairs.length
        else (s, execd, .ok (cancelledResult m))

/-- `run_agent_workflow` of `agent/dedup_agent.py`: phases 1–4 feed the
metrics from the collaborator outcomes, then phases 5–7 run via the helpers
above.  A collaborator error status is raised (`Except.error`), matching
`raise Exception(result["message"])`. -/
def run_agent_workflow (jobId : String) (cfg : JobConfig) (env : WorkflowEnv) (s : Store) : WfOut :=
  let m : Metrics :=
    { totalContacts := 0, totalOwners := 0, emailsValidated := 0
      duplicatesFound := 0, sfdcUpdates := 0, errors := [] }
  let s := update_progress s jobId "phase_1_connect" 1 "Connecting to Salesforce..."
  let execd := ["connect_to_salesforce"]
  match env.connectResult with
  | .error msg => (s, execd, .error msg)
  | .ok _ =>
    let s := update_progress s jobId "phase_2_extract" 2
      "Extracting contacts grouped by Account Owner..."
    let execd := execd ++ ["extract_contacts"]
    match env.extractionResult with
    | .error msg => (s, execd, .error msg)
    | .ok ext =>
      let m := { m with totalContacts := ext.totalContacts, totalOwners := ext.ownerCount }
      let s := update_progress s jobId "phase_3_validate" 3
        ("Validating " ++ toString ext.totalContacts ++ " email addresses...")
      let execd := execd ++ ["validate_emails"]
      let m := { m with emailsValidated := env.validation.totalProcessed }
      let s := update_progress s jobId "phase_4_detect" 4
        ("Detecting duplicates across " ++ toString ext.ownerCount ++ " Account Owners...")
      let execd := execd ++ ["detect_duplicates"]
      let m := { m with duplicatesFound := env.duplicatePairs.length }
      let s := update_progress s jobId "phase_5_mark" 5
        ("Preparing to mark " ++ toString env.duplicatePairs.length ++ " duplicate pairs...")
      phase5 jobId cfg env s execd m env.validation.updates env.duplicatePairs

/-- The initial `running` write of `run_agent_job`. -/
def runnerStartUpdate : JobUpdate :=
  { status := some "running"
    progress := some
      { phase := "phase_1_connect", currentStep := some 1, totalSteps := some 7
        message := "Connecting to Salesforce..." } }

/-- The terminal write of a successful run. -/
def completedUpdate (r : WorkflowResult) : JobUpdate :=
  { status := some "completed", results := some (some r)
    progress := some
      { phase := "completed", currentStep := some 7, totalSteps := some 7
        message := "Job completed successfully" } }

/-- The terminal write of the exception handler at the runner boundary. -/
def failedUpdate (e : String) : JobUpdate :=
  { status := some "failed", error := some (some e)
    progress := some
      { phase := "failed", currentStep := none, totalSteps := none
        message := "Job failed: " ++ e } }

/-- `run_agent_job` of `main.py`: the runner boundary.  Marks the job
running, executes the workflow, then stores `completed` + results on a
normal return and `failed` + the exception message on a raise.  The
function is total: no exception escapes it.  (The executed-tool trace is
returned alongside for the theorems.) -/
def run_agent_job (jobId : String) (env : WorkflowEnv) (s : Store) : Store × List String :=
  match get_job s jobId with
  | none => (s, [])
  | some job =>
    let s := (update_job s jobId runnerStartUpdate).getD s
    match run_agent_workflow jobId job.config env s with
    | (s, execd, .ok r) => ((update_job s jobId (completedUpdate r)).getD s, execd)
    | (s, execd, .error e) => ((update_job s jobId (failedUpdate e)).getD s, execd)

/-- `wait_for_approval` of `agent/dedup_agent.py`: the poll loop, one list
entry per 2-second poll of the store inside the timeout window.  A poll
that observes a (truthy) `approval_decision` returns its `approved` value;
an exhausted poll budget (the timeout) returns `False`. -/
def wait_for_approval (jobId : String) : List Store → Bool
  | [] => false
  | s :: rest =>
    match get_job s jobId with
    | some job =>
      match job.approvalDecision with
      | some d => d.approved
      | none => wait_for_approval jobId rest
    | none => wait_for_approval jobId rest

/-- The decision visible for `jobId` in one polled store snapshot. -/
def observedDecision (jobId : String) (s : Store) : Option ApprovalDecision :=
  (get_job s jobId).bind (fun j => j.approvalDecision)

/-- The first decision observed along a poll sequence. -/
def firstObservedDecision (jobId : String) : List Store → Option ApprovalDecision
  | [] => none
  | s :: rest =>
    match observedDecision jobId s with
    | some d => some d
    | none => firstObservedDecision jobId rest

/-- An HTTP-shaped endpoint outcome: a payload or an HTTPException. -/
inductive ApiResult (α : Type) where
  | ok (value : α)
  | httpError (statusCode : Nat) (detail : String)
deriving DecidableEq, Repr

/-- Body of `POST /api/dedup/approve`. -/
structure ApprovalRequestM where
  jobId : String
  approved : Bool
  rejectedPairs : Option (List String)
deriving DecidableEq, Repr

/-- Response model of `POST /api/dedup/approve`. -/
structure ApprovalResponseM where
  jobId : String
  status : String
  message : String
deriving DecidableEq, Repr

/-- The update written by the approval endpoint for a request `req`:
the decision is stored and the job resumed.  The update does not touch
`pending_approval`. -/
def approvalUpdate (req : ApprovalRequestM) : JobUpdate :=
  { approvalDecision := some (some
      { approved := req.approved, rejectedPairs := req.rejectedPairs.getD [] })
    status := some "running" }

/-- `approve_decision` of `main.py`: 404 when the job id is unknown, 400
when the job is not `awaiting_approval`, otherwise stores the decision and
sets `status = "running"`. -/
def approve_decision (s : Store) (req : ApprovalRequestM) :
    ApiResult ApprovalResponseM × Store :=
  match get_job s req.jobId with
  | none => (.httpError 404 ("Job " ++ req.jobId ++ " not found"), s)
  | some job =>
    if job.status ≠ "awaiting_approval" then
      (.httpError 400
        ("Job is not awaiting approval (current status: " ++ job.status ++ ")"), s)
    else
      match update_job s req.jobId (approvalUpdate req) with
      | some t =>
        (.ok { jobId := req.jobId
               status := if req.approved then "approved" else "rejected"
               message := "Decision " ++
                 (if req.approved then "approved" else "rejected") ++ " successfully" }, t)
      | none => (.httpError 404 ("Job " ++ req.jobId ++ " not found"), s)

/-- Every store mutation the source performs, one constructor per call
site: job creation, the runner's initial `running` write, progress-only
writes, the two checkpoint writes, the approval endpoint's write, and the
runner's two terminal writes. -/
inductive Step : Store → Store → Prop where
  | create (s : Store) (jobId : String) (cfg : JobConfig) :
      Step s (create_job s jobId cfg)
  | runnerStart (s t : Store) (jobId : String) (p : Progress)
      (h : update_job s jobId { status := some "running", progress := some p } = some t) :
      Step s t
  | progressWrite (s t : Store) (jobId : String) (p : Progress)
      (h : update_job s jobId { progress := some p } = some t) :
      Step s t
  | checkpoint (s t : Store) (jobId : String) (pa : PendingApproval)
      (h : update_job s jobId
        { status := some "awaiting_approval", pendingApproval := some (some pa) } = some t) :
      Step s t
  | approve (s t : Store) (jobId : String) (d : ApprovalDecision)
      (h : update_job s jobId
        { approvalDecision := some (some d), status := some "running" } = some t) :
      Step s t
  | complete (s t : Store) (jobId : String) (r : WorkflowResult) (p : Progress)
      (h : update_job s jobId
        { status := some "completed", results := some (some r), progress := some p } = some t) :
      Step s t
  | fail (s t : Store) (jobId : String) (e : String) (p : Progress)
      (h : update_job s jobId
        { status := some "failed", error := some (some e), progress := some p } = some t) :
      Step s t

/-- The provable direction of the spec's pending-approval invariant: a job
whose status is `awaiting_approval` always carries a non-null
`pending_approval`. -/
def AwaitImpliesPending (s : Store) : Prop :=
  ∀ i job, get_job s i = some job → job.status = "awaiting_approval" →
    job.pendingApproval ≠ none

/-- A WebSocket sink subscribed to one job; `ok` says whether `send_text`
succeeds for the snapshot being broadcast. -/
structure Sink where
  sid : Nat
  ok : Bool
deriving DecidableEq, Repr

/-- Python `list.remove` (used by `remove_websocket`): drops the first
occurrence, no error when absent. -/
def removeFirst : List Sink → Sink → List Sink
  | [], _ => []
  | x :: xs, w => if x = w then xs else x :: removeFirst xs w

/-- The iteration of `broadcast_update`: walk a copy of the client list;
a successful send is delivered, a failing sink is removed from the live
list and the loop continues. -/
def broadcastGo : List Sink → List Sink → List Sink → List Sink × List Sink
  | [], live, delivered => (delivered, live)
  | w :: rest, live, delivered =>
    if w.ok then broadcastGo rest live (delivered ++ [w])
    else broadcastGo rest (removeFirst live w) delivered

/-- `JobManager.broadcast_update` for one job's client list: returns the
sinks that received the snapshot and the client list after the call.  The
function is total — a failing sink never aborts the call. -/
def broadcast_update (clients : List Sink) : List Sink × List Sink :=
  broadcastGo clients clients []

/-- Occurrence count of a sink in a client list. -/
def occ (w : Sink) : List Sink → Nat
  | [] => 0
  | x :: xs => (if x = w then 1 else 0) + occ w xs

namespace RefModel

/-- `JobManager.jobs` with Python reference semantics made explicit: the
job dicts live on a heap of addresses and `self.jobs` maps ids to
references.  `list(self.jobs.values())` copies the reference list, not the
records. -/
structure HeapStore where
  heap : List (Nat × JobRecord)
  jobs : List (String × Nat)
deriving DecidableEq, Repr

/-- Lookup on the heap (first match). -/
def heapGet : List (Nat × JobRecord) → Nat → Option JobRecord
  | [], _ => none
  | p :: rest, a => if p.1 = a then some p.2 else heapGet rest a

/-- Lookup in the id→reference map (first match). -/
def refGet : List (String × Nat) → String → Option Nat
  | [], _ => none
  | p :: rest, i => if p.1 = i then some p.2 else refGet rest i

/-- Dereference one record address. -/
def deref (hs : HeapStore) (a : Nat) : Option JobRecord := heapGet hs.heap a

/-- Reference of a job id. -/
def refOf (hs : HeapStore) (i : String) : Option Nat := refGet hs.jobs i

/-- `JobManager.list_jobs`: `list(self.jobs.values())` — a fresh list whose
elements are references to the live job dicts. -/
def list_jobs (hs : HeapStore) : List Nat := hs.jobs.map (fun p => p.2)

/-- `JobManager.update_job` under reference semantics: mutates the record
on the heap in place; the id→reference map is untouched. -/
def update_job (hs : HeapStore) (i : String) (u : JobUpdate) : Option HeapStore :=
  match refOf hs i with
  | none => none
  | some a =>
    some { hs with
      heap := hs.heap.map fun p => if p.1 = a then (p.1, applyUpdate p.2 u) else p }

/-- Reading a previously returned `list_jobs` result at a later time:
each reference is dereferenced against the current heap. -/
def readList (hs : HeapStore) (refs : List Nat) : List (Option JobRecord) :=
  refs.map (deref hs)

end RefModel

/-- A pair both of whose contact ids resolve in `contacts_dict`. -/
def pairResolved (contacts : String → Option Contact) (p : DupPair) : Bool :=
  (contacts p.contactId1).isSome && (contacts p.contactId2).isSome

theorem foldl_markStep_lengths (contacts : String → Option Contact) (pairs : List DupPair) :
    ∀ u d,
      ((pairs.foldl (markStep contacts) (u, d)).1.length
        = u.length + 2 * (pairs.filter (pairResolved contacts)).length)
      ∧ ((pairs.foldl (markStep contacts) (u, d)).2.length
        = d.length + (pairs.filter (pairResolved contacts)).length) := by
  induction pairs with
  | nil => intro u d; simp
  | cons p rest ih =>
    intro u d
    simp only [List.foldl_cons, List.filter_cons]
    cases h1 : contacts p.contactId1 with
    | none =>
      rw [show markStep contacts (u, d) p = (u, d) by simp [markStep, h1]]
      simpa [pairResolved, h1] using ih u d
    | some c1 =>
      cases h2 : contacts p.contactId2 with
      | none =>
        rw [show markStep contacts (u, d) p = (u, d) by simp [markStep, h1, h2]]
        simpa [pairResolved, h1, h2] using ih u d
      | some c2 =>
        rw [show markStep contacts (u, d) p
          = (u ++ [markUpdate1 c1 c2, markUpdate2 c1 c2], d ++ [markDecision p c1 c2]) by
          simp [markStep, h1, h2]]
        have ih2 := ih (u ++ [markUpdate1 c1 c2, markUpdate2 c1 c2])
          (d ++ [markDecision p c1 c2])
        constructor
        · rw [ih2.1]; simp [pairResolved, h1, h2]; omega
        · rw [ih2.2]; simp [pairResolved, h1, h2]; omega

theorem mem_foldl_markStep (contacts : String → Option Contact) (pairs : List DupPair) :
    ∀ u d x, x ∈ (pairs.foldl (markStep contacts) (u, d)).2 →
      x ∈ d ∨ ∃ p c1 c2, contacts p.contactId1 = some c1
        ∧ contacts p.contactId2 = some c2 ∧ x = markDecision p c1 c2 := by
  induction pairs with
  | nil => intro u d x hx; exact Or.inl (by simpa using hx)
  | cons p rest ih =>
    intro u d x hx
    simp only [List.foldl_cons] at hx
    cases h1 : contacts p.contactId1 with
    | none =>
      rw [show markStep contacts (u, d) p = (u, d) by simp [markStep, h1]] at hx
      exact ih u d x hx
    | some c1 =>
      cases h2 : contacts p.contactId2 with
      | none =>
        rw [show markStep contacts (u, d) p = (u, d) by simp [markStep, h1, h2]] at hx
        exact ih u d x hx
      | some c2 =>
        rw [show markStep contacts (u, d) p
          = (u ++ [markUpdate1 c1 c2, markUpdate2 c1 c2], d ++ [markDecision p c1 c2]) by
          simp [markStep, h1, h2]] at hx
        rcases ih _ _ x hx with hin | hex
        · rcases List.mem_append.mp hin with h | h
          · exact Or.inl h
          · exact Or.inr ⟨p, c1, c2, h1, h2, by simpa using h⟩
        · exact Or.inr hex

theorem suggestedActions_spec (c1 c2 : Contact) :
    (markScore c1 c2 < markScore c2 c1
      ∧ suggestedActions c1 c2 = ("Delete", "Keep - Not a duplicate"))
    ∨ (markScore c2 c1 < markScore c1 c2
      ∧ suggestedActions c1 c2 = ("Keep - Not a duplicate", "Delete"))
    ∨ (markScore c1 c2 = markScore c2 c1
      ∧ suggestedActions c1 c2
        = ("Merge into other record", "Merge into other record")) := by
  unfold suggestedActions
  rcases lt_trichotomy (markScore c1 c2) (markScore c2 c1) with h | h | h
  · exact Or.inl ⟨h, by simp [h]⟩
  · refine Or.inr (Or.inr ⟨h, ?_⟩)
    simp [h, lt_irrefl]
  · refine Or.inr (Or.inl ⟨h, ?_⟩)
    simp [not_lt_of_gt h, h]

/-- Claim C10: `traced_duplicate_marking` returns `total_updates` equal to
exactly twice `duplicate_groups`; each pair whose two ids both resolve in
the contact lookup contributes exactly two update payloads and one
decision, and an unresolvable pair contributes neither (the group count is
exactly the number of resolvable pairs, the update count twice that). -/
theorem C10_total_updates_twice_groups (pairs : List DupPair)
    (contacts : String → Option Contact) :
    (traced_duplicate_marking pairs contacts).totalUpdates
      = 2 * (traced_duplicate_marking pairs contacts).duplicateGroups
    ∧ (traced_duplicate_marking pairs contacts).duplicateGroups
      = (pairs.filter (pairResolved contacts)).length
    ∧ (traced_duplicate_marking pairs contacts).updates.length
      = 2 * (pairs.filter (pairResolved contacts)).length := by
  have h := foldl_markStep_lengths contacts pairs [] []
  simp only [traced_duplicate_marking]
  simp only [List.length_nil, Nat.zero_add, zero_add] at h
  exact ⟨by rw [h.1, h.2], h.2, h.1⟩

/-- Claim C9: the duplicate-marking step never suggests "Delete" for both
contacts of a pair: when the completeness scores differ, exactly the
lower-scored contact gets "Delete" and the other "Keep - Not a duplicate";
a score tie yields "Merge into other record" for both.  The second
conjunct lifts this to every decision actually recorded by
`traced_duplicate_marking`. -/
theorem C9_never_both_delete :
    (∀ c1 c2 : Contact,
      (¬((suggestedActions c1 c2).1 = "Delete" ∧ (suggestedActions c1 c2).2 = "Delete"))
      ∧ (markScore c1 c2 ≠ markScore c2 c1 →
          (suggestedActions c1 c2 = ("Delete", "Keep - Not a duplicate")
            ∨ suggestedActions c1 c2 = ("Keep - Not a duplicate", "Delete")))
      ∧ (markScore c1 c2 = markScore c2 c1 →
          suggestedActions c1 c2 = ("Merge into other record", "Merge into other record")))
    ∧ (∀ (pairs : List DupPair) (contacts : String → Option Contact) (dec : Decision),
        dec ∈ (traced_duplicate_marking pairs contacts).decisions →
        ¬(dec.contact1.suggestedAction = "Delete"
          ∧ dec.contact2.suggestedAction = "Delete")) := by
  have base : ∀ c1 c2 : Contact,
      ¬((suggestedActions c1 c2).1 = "Delete" ∧ (suggestedActions c1 c2).2 = "Delete") := by
    intro c1 c2
    rcases suggestedActions_spec c1 c2 with ⟨_, e⟩ | ⟨_, e⟩ | ⟨_, e⟩ <;> rw [e] <;> decide
  constructor
  · intro c1 c2
    refine ⟨base c1 c2, ?_, ?_⟩
    · intro hne
      rcases suggestedActions_spec c1 c2 with ⟨_, e⟩ | ⟨_, e⟩ | ⟨heq, _⟩
      · exact Or.inl e
      · exact Or.inr e
      · exact absurd heq hne
    · intro heq
      rcases suggestedActions_spec c1 c2 with ⟨hlt, _⟩ | ⟨hlt, _⟩ | ⟨_, e⟩
      · exact absurd heq (ne_of_lt hlt)
      · exact absurd heq.symm (ne_of_lt hlt)
      · exact e
  · intro pairs contacts dec hmem
    simp only [traced_duplicate_marking] at hmem
    rcases mem_foldl_markStep contacts pairs [] [] dec hmem with hin | ⟨p, c1, c2, _, _, hdec⟩
    · simp at hin
    · subst hdec
      have h1 : (markDecision p c1 c2).contact1.suggestedAction
          = (suggestedActions c1 c2).1 := rfl
      have h2 : (markDecision p c1 c2).contact2.suggestedAction
          = (suggestedActions c1 c2).2 := rfl
      rw [h1, h2]
      exact base c1 c2

/-- A contact with every optional field empty (used by witnesses). -/
def blankContact : Contact :=
  { cid := "003B0", firstName := "Ann", lastName := "Lee", email := ""
    phone := "", title := "", emailBouncedReason := "" }

/-- Witness for C9: two identical blank contacts tie on the completeness
score, so the marking suggests a merge of both records. -/
theorem C9_never_both_delete_witness :
    suggestedActions blankContact blankContact
      = ("Merge into other record", "Merge into other record") :=
  ((C9_never_both_delete.1 blankContact blankContact).2.2) (by decide)

theorem toBatchesF_join (bs : Nat) : ∀ (fuel : Nat) (l : List UpdateReq),
    (toBatchesF bs fuel l).flatten = l := by
  intro fuel
  induction fuel with
  | zero => intro l; cases l <;> simp [toBatchesF]
  | succ n ih =>
    intro l
    cases l with
    | nil => simp [toBatchesF]
    | cons x xs => simp [toBatchesF, ih (xs.drop (bs - 1))]

theorem foldl_batchStep_spec (sfSend : UpdateReq → ItemResult) :
    ∀ (l : List UpdateReq) (n : Nat) (errs : List MutError),
      l.foldl (batchStep sfSend) (n, errs)
        = (n + (l.filter (fun r => (sfSend r).success)).length,
           errs ++ (l.filter (fun r => !(sfSend r).success)).map
             (fun r => { contactId := r.uid, errMsg := (sfSend r).errText })) := by
  intro l
  induction l with
  | nil => intro n errs; simp
  | cons r rest ih =>
    intro n errs
    by_cases h : (sfSend r).success
    · rw [List.foldl_cons,
        show batchStep sfSend (n, errs) r = (n + 1, errs) by simp [batchStep, h], ih]
      simp [List.filter_cons, h]
      omega
    · rw [List.foldl_cons,
        show batchStep sfSend (n, errs) r
          = (n, errs ++ [{ contactId := r.uid, errMsg := (sfSend r).errText }]) by
          simp [batchStep, h], ih]
      simp [List.filter_cons, h]

theorem length_filter_add_length_filter_not (p : UpdateReq → Bool) (l : List UpdateReq) :
    (l.filter p).length + (l.filter (fun r => !(p r))).length = l.length := by
  induction l with
  | nil => rfl
  | cons r rest ih => by_cases h : p r <;> simp [List.filter_cons, h] <;> omega

theorem foldl_toBatches (sfSend : UpdateReq → ItemResult) (bs : Nat) (l : List UpdateReq)
    (acc : Nat × List MutError) :
    (toBatches bs l).foldl (fun a batch => batch.foldl (batchStep sfSend) a) acc
      = l.foldl (batchStep sfSend) acc := by
  conv_rhs => rw [← toBatchesF_join bs l.length l]
  rw [toBatches, List.foldl_flatten]

theorem applyMutationMetrics_sfdcUpdates (m : Metrics) (ur : UpdateResult) :
    (applyMutationMetrics m ur).sfdcUpdates = ur.successCount := by
  unfold applyMutationMetrics
  split <;> rfl

theorem applyMutationMetrics_errors (m : Metrics) (ur : UpdateResult) :
    (applyMutationMetrics m ur).errors
      = if ur.errorCount > 0 then ur.errors else m.errors := by
  unfold applyMutationMetrics
  split <;> rfl

/-- Claim C3 (amended): for N requests of which M fail individually, the
phase completes without raising and without any failure aborting the
remaining requests; `success_count = N - M` and `error_count = M` are
recorded, and the workflow metrics take `sfdc_updates = N - M`; but the
error list stored in the metrics is the result's `errors[:10]`, so its
length is `min 10 M`, not M. -/
theorem C3_mutation_partial_failure (sfSend : UpdateReq → ItemResult)
    (updates : List UpdateReq) (m0 : Metrics) (hm : m0.errors = []) :
    (traced_salesforce_update sfSend updates 200).successCount
      = updates.length - (updates.filter (fun r => !(sfSend r).success)).length
    ∧ (traced_salesforce_update sfSend updates 200).errorCount
      = (updates.filter (fun r => !(sfSend r).success)).length
    ∧ (applyMutationMetrics m0 (traced_salesforce_update sfSend updates 200)).sfdcUpdates
      = (traced_salesforce_update sfSend updates 200).successCount
    ∧ (applyMutationMetrics m0 (traced_salesforce_update sfSend updates 200)).errors.length
      = min 10 (updates.filter (fun r => !(sfSend r).success)).length := by
  by_cases hupd : updates = []
  · subst hupd
    simp [traced_salesforce_update, applyMutationMetrics, hm]
  · have hrun : traced_salesforce_update sfSend updates 200
        = { status :=
              if ((updates.filter (fun r => !(sfSend r).success)).map
                (fun r => ({ contactId := r.uid, errMsg := (sfSend r).errText } : MutError))) = []
              then "success" else "partial"
            message := none
            successCount := (updates.filter (fun r => (sfSend r).success)).length
            errorCount := ((updates.filter (fun r => !(sfSend r).success)).map
              (fun r => ({ contactId := r.uid, errMsg := (sfSend r).errText } : MutError))).length
            errors := ((updates.filter (fun r => !(sfSend r).success)).map
              (fun r => ({ contactId := r.uid, errMsg := (sfSend r).errText } : MutError))).take 10 } := by
      unfold traced_salesforce_update
      rw [if_neg hupd, foldl_toBatches, foldl_batchStep_spec]
      simp
    have hcomp := length_filter_add_length_filter_not (fun r => (sfSend r).success) updates
    refine ⟨?_, ?_, ?_, ?_⟩
    · rw [hrun]
      simp only []
      omega
    · rw [hrun]
      simp [List.length_map]
    · rw [applyMutationMetrics_sfdcUpdates]
    · rw [applyMutationMetrics_errors, hrun]
      by_cases hz : (updates.filter (fun r => !(sfSend r).success)).length > 0
      · rw [if_pos (by simpa using hz)]
        simp [List.length_take, List.length_map]
      · have h0 : (updates.filter (fun r => !(sfSend r).success)).length = 0 := by omega
        rw [if_neg (by simpa using hz)]
        simp [hm, h0]

/-- A duplicate-marking update payload whose sink write will fail. -/
def mkFailReq (i : String) : UpdateReq :=
  { uid := i, emailStatus := "Duplicate", duplicateGroupName := "G"
    duplicateJustification := "J", suggestedAction := "Delete", duplicateReviewed := false }

/-- Eleven update requests (one batch of the default batch size 200). -/
def cexUpdates : List UpdateReq :=
  [mkFailReq "c01", mkFailReq "c02", mkFailReq "c03", mkFailReq "c04", mkFailReq "c05",
   mkFailReq "c06", mkFailReq "c07", mkFailReq "c08", mkFailReq "c09", mkFailReq "c10",
   mkFailReq "c11"]

/-- A sink for which every individual request fails. -/
def cexSink : UpdateReq → ItemResult :=
  fun _ => { success := false, errText := "INVALID_CROSS_REFERENCE_KEY" }

/-- The workflow metrics accumulator as it stands when phase 6 starts. -/
def cexMetrics : Metrics :=
  { totalContacts := 11, totalOwners := 1, emailsValidated := 11
    duplicatesFound := 0, sfdcUpdates := 0, errors := [] }

/-- Counterexample for C3: with N = M = 11 individually failing requests
the phase records `error_count = 11` and `success_count = 0 = N - M`, but
the error list stored into the metrics has length 10 (`errors[:10]`), not
M = 11. -/
theorem C3_errors_capped_cex :
    (traced_salesforce_update cexSink cexUpdates 200).errorCount = 11
    ∧ (traced_salesforce_update cexSink cexUpdates 200).successCount = 0
    ∧ ¬((applyMutationMetrics cexMetrics
          (traced_salesforce_update cexSink cexUpdates 200)).errors.length = 11) := by
  decide

/-- Witness for the amended C3 theorem at the concrete eleven-failure
input. -/
theorem C3_mutation_partial_failure_witness :
    (traced_salesforce_update cexSink cexUpdates 200).errorCount
        = (cexUpdates.filter (fun r => !(cexSink r).success)).length
    ∧ (applyMutationMetrics cexMetrics
        (traced_salesforce_update cexSink cexUpdates 200)).errors.length
        = min 10 (cexUpdates.filter (fun r => !(cexSink r).success)).length :=
  ⟨(C3_mutation_partial_failure cexSink cexUpdates cexMetrics (by decide)).2.1,
   (C3_mutation_partial_failure cexSink cexUpdates cexMetrics (by decide)).2.2.2⟩

theorem wait_for_approval_cons (jobId : String) (s : Store) (rest : List Store) :
    wait_for_approval jobId (s :: rest)
      = match observedDecision jobId s with
        | some d => d.approved
        | none => wait_for_approval jobId rest := by
  cases hg : get_job s jobId with
  | none => simp [wait_for_approval, observedDecision, hg]
  | some job =>
    cases hd : job.approvalDecision with
    | none => simp [wait_for_approval, observedDecision, hg, hd]
    | some d => simp [wait_for_approval, observedDecision, hg, hd]

theorem firstObservedDecision_cons (jobId : String) (s : Store) (rest : List Store) :
    firstObservedDecision jobId (s :: rest)
      = match observedDecision jobId s with
        | some d => some d
        | none => firstObservedDecision jobId rest := rfl

/-- Claim C5: the approval wait returns the first observed decision's
`approved` value when one is posted within the poll budget, returns `false`
when no poll observes a decision (the timeout default-deny), and can only
return `true` when some polled store actually carries an approved
decision. -/
theorem C5_wait_for_approval_default_deny (jobId : String) (polls : List Store) :
    (∀ d, firstObservedDecision jobId polls = some d →
        wait_for_approval jobId polls = d.approved)
    ∧ (firstObservedDecision jobId polls = none →
        wait_for_approval jobId polls = false)
    ∧ (wait_for_approval jobId polls = true →
        ∃ s ∈ polls, ∃ d, observedDecision jobId s = some d ∧ d.approved = true) := by
  induction polls with
  | nil =>
    refine ⟨?_, ?_, ?_⟩
    · intro d h; cases h
    · intro _; rfl
    · intro h; cases h
  | cons s rest ih =>
    refine ⟨?_, ?_, ?_⟩
    · intro d h
      rw [firstObservedDecision_cons] at h
      rw [wait_for_approval_cons]
      cases ho : observedDecision jobId s with
      | some d0 => rw [ho] at h; simp at h ⊢; rw [h]
      | none => rw [ho] at h; exact ih.1 d h
    · intro h
      rw [firstObservedDecision_cons] at h
      rw [wait_for_approval_cons]
      cases ho : observedDecision jobId s with
      | some d0 => rw [ho] at h; cases h
      | none => rw [ho] at h; exact ih.2.1 h
    · intro h
      rw [wait_for_approval_cons] at h
      cases ho : observedDecision jobId s with
      | some d0 =>
        rw [ho] at h
        exact ⟨s, List.mem_cons_self s rest, d0, ho, h⟩
      | none =>
        rw [ho] at h
        rcases ih.2.2 h with ⟨s', hs', d, hd, ha⟩
        exact ⟨s', List.mem_cons_of_mem s hs', d, hd, ha⟩

/-- A pending-approval payload used by the concrete fixtures. -/
def paFixture : PendingApproval :=
  { stage := "duplicate_marking", totalUpdates := 2, decisions := []
    message := "Ready to mark 2 contacts as duplicates" }

/-- The default `POST /api/dedup/start` configuration
(`auto_approve = False`). -/
def defaultConfig : JobConfig :=
  { batchSize := none, ownerFilter := none, autoApprove := false }

/-- A job parked at the duplicate-marking checkpoint. -/
def awaitingJob : JobRecord :=
  { initialJob "job-1" defaultConfig with
      status := "awaiting_approval", pendingApproval := some paFixture }

/-- The same job after the approval endpoint consumed an approval. -/
def decidedJob : JobRecord :=
  { awaitingJob with
      status := "running"
      approvalDecision := some { approved := true, rejectedPairs := [] } }

/-- Witness for C5: a first poll with no decision and a second poll with an
approved decision make the wait return `true`. -/
theorem C5_wait_for_approval_default_deny_witness :
    wait_for_approval "job-1" [[("job-1", awaitingJob)], [("job-1", decidedJob)]] = true :=
  (C5_wait_for_approval_default_deny "job-1"
      [[("job-1", awaitingJob)], [("job-1", decidedJob)]]).1
    { approved := true, rejectedPairs := [] } (by decide)

theorem approve_decision_of_awaiting (s : Store) (req : ApprovalRequestM)
    (job : JobRecord) (hget : get_job s req.jobId = some job)
    (hst : job.status = "awaiting_approval") :
    approve_decision s req
      = (.ok { jobId := req.jobId
               status := if req.approved then "approved" else "rejected"
               message := "Decision " ++
                 (if req.approved then "approved" else "rejected") ++ " successfully" },
         writeJob s req.jobId (approvalUpdate req)) := by
  have hhas : hasJob s req.jobId = true := by simp [hasJob, hget]
  have hupd : update_job s req.jobId (approvalUpdate req)
      = some (writeJob s req.jobId (approvalUpdate req)) := by
    simp [update_job, hhas]
  simp only [approve_decision, hget, hupd]
  rw [if_neg (by simp [hst])]

theorem approve_decision_of_not_awaiting (s : Store) (req : ApprovalRequestM)
    (job : JobRecord) (hget : get_job s req.jobId = some job)
    (hst : job.status ≠ "awaiting_approval") :
    approve_decision s req
      = (.httpError 400
          ("Job is not awaiting approval (current status: " ++ job.status ++ ")"), s) := by
  simp only [approve_decision, hget]
  rw [if_pos hst]

theorem approve_decision_ok_shape (s0 : Store) (req0 : ApprovalRequestM)
    (resp : ApprovalResponseM) (t : Store)
    (hok : approve_decision s0 req0 = (.ok resp, t)) :
    ∃ job0, get_job s0 req0.jobId = some job0 ∧ job0.status = "awaiting_approval"
      ∧ t = writeJob s0 req0.jobId (approvalUpdate req0) := by
  cases hg : get_job s0 req0.jobId with
  | none =>
    simp only [approve_decision, hg] at hok
    cases hok
  | some job0 =>
    by_cases hst0 : job0.status = "awaiting_approval"
    · have := approve_decision_of_awaiting s0 req0 job0 hg hst0
      rw [this] at hok
      have ht := congrArg Prod.snd hok
      simp only at ht
      exact ⟨job0, rfl, hst0, ht.symm⟩
    · rw [approve_decision_of_not_awaiting s0 req0 job0 hg hst0] at hok
      cases hok

/-- Claim C6: posting a decision for a job that is not `awaiting_approval`
is rejected by the request path with a 400 conflict and leaves the store
unchanged; and once a first decision for a pending checkpoint has been
consumed (the job moved to `running`), any further post for the same job is
likewise rejected with 400 with the store unchanged — only the first
decision is honored. -/
theorem C6_approve_conflict_rejected (s : Store) (req : ApprovalRequestM)
    (job : JobRecord) (hget : get_job s req.jobId = some job)
    (hst : job.status ≠ "awaiting_approval") :
    approve_decision s req
      = (.httpError 400
          ("Job is not awaiting approval (current status: " ++ job.status ++ ")"), s)
    ∧ (∀ (s0 : Store) (req0 : ApprovalRequestM) (resp : ApprovalResponseM) (t : Store)
        (req2 : ApprovalRequestM), approve_decision s0 req0 = (.ok resp, t) →
        req2.jobId = req0.jobId →
        approve_decision t req2
          = (.httpError 400 "Job is not awaiting approval (current status: running)", t)) := by
  constructor
  · exact approve_decision_of_not_awaiting s req job hget hst
  · intro s0 req0 resp t req2 hok hid
    rcases approve_decision_ok_shape s0 req0 resp t hok with ⟨job0, hg0, _, ht⟩
    have hgt : get_job t req2.jobId = some (applyUpdate job0 (approvalUpdate req0)) := by
      rw [ht, hid, get_job_writeJob_self, hg0]
      rfl
    have hrun : (applyUpdate job0 (approvalUpdate req0)).status = "running" := rfl
    have hres := approve_decision_of_not_awaiting t req2
      (applyUpdate job0 (approvalUpdate req0)) hgt (by rw [hrun]; decide)
    rw [hres, hrun]
    rfl

/-- A job already resumed by a consumed decision. -/
def runningJob : JobRecord := { initialJob "job-1" defaultConfig with status := "running" }

/-- `POST /api/dedup/approve` body approving job-1. -/
def approveReqTrue : ApprovalRequestM :=
  { jobId := "job-1", approved := true, rejectedPairs := none }

/-- Witness for C6: approving a job that is already `running` yields a 400
conflict and does not change the store. -/
theorem C6_approve_conflict_rejected_witness :
    approve_decision [("job-1", runningJob)] approveReqTrue
      = (.httpError 400 "Job is not awaiting approval (current status: running)",
         [("job-1", runningJob)]) :=
  (C6_approve_conflict_rejected [("job-1", runningJob)] approveReqTrue runningJob
    (by decide) (by decide)).1

theorem awaitInv_writeJob (t : Store) (i : String) (u : JobUpdate)
    (hinv : AwaitImpliesPending t)
    (hu : ∀ j : JobRecord,
      (applyUpdate j u).status = "awaiting_approval" →
      (applyUpdate j u).pendingApproval ≠ none
        ∨ (j.status = "awaiting_approval"
            ∧ (applyUpdate j u).pendingApproval = j.pendingApproval)) :
    AwaitImpliesPending (writeJob t i u) := by
  intro i' jb hg hstat
  by_cases hii : i' = i
  · subst hii
    rw [get_job_writeJob_self] at hg
    cases hgt : get_job t i' with
    | none => rw [hgt] at hg; cases hg
    | some j0 =>
      rw [hgt] at hg
      have hjb : jb = applyUpdate j0 u := by
        simpa [eq_comm] using hg
      subst hjb
      rcases hu j0 hstat with h | ⟨hs0, hp⟩
      · exact h
      · rw [hp]; exact hinv i' j0 hgt hs0
  · rw [get_job_writeJob_ne t i i' u hii] at hg
    exact hinv i' jb hg hstat

theorem step_preserves_awaitInv (t t' : Store) (hinv : AwaitImpliesPending t)
    (hstep : Step t t') : AwaitImpliesPending t' := by
  cases hstep with
  | create jobId cfg =>
    intro i jb hg hstat
    rw [create_job, get_job_append] at hg
    cases hgt : get_job t i with
    | some j0 =>
      rw [hgt] at hg
      have : jb = j0 := by simpa [eq_comm] using hg
      subst this
      exact hinv i jb hgt hstat
    | none =>
      rw [hgt] at hg
      by_cases hji : jobId = i
      · have : jb = initialJob jobId cfg := by
          simpa [get_job, hji, eq_comm] using hg
        rw [this] at hstat
        exact absurd hstat (by simp [initialJob])
      · simp [get_job, hji] at hg
  | runnerStart t2 jobId p h =>
    rcases update_job_eq_some_iff.mp h with ⟨_, hw⟩
    rw [hw]
    refine awaitInv_writeJob t jobId _ hinv ?_
    intro j hj
    exact absurd hj (by simp [applyUpdate])
  | progressWrite t2 jobId p h =>
    rcases update_job_eq_some_iff.mp h with ⟨_, hw⟩
    rw [hw]
    refine awaitInv_writeJob t jobId _ hinv ?_
    intro j hj
    exact Or.inr ⟨by simpa [applyUpdate] using hj, by simp [applyUpdate]⟩
  | checkpoint t2 jobId pa h =>
    rcases update_job_eq_some_iff.mp h with ⟨_, hw⟩
    rw [hw]
    refine awaitInv_writeJob t jobId _ hinv ?_
    intro j _
    exact Or.inl (by simp [applyUpdate])
  | approve t2 jobId d h =>
    rcases update_job_eq_some_iff.mp h with ⟨_, hw⟩
    rw [hw]
    refine awaitInv_writeJob t jobId _ hinv ?_
    intro j hj
    exact absurd hj (by simp [applyUpdate])
  | complete t2 jobId r p h =>
    rcases update_job_eq_some_iff.mp h with ⟨_, hw⟩
    rw [hw]
    refine awaitInv_writeJob t jobId _ hinv ?_
    intro j hj
    exact absurd hj (by simp [applyUpdate])
  | fail t2 jobId e p h =>
    rcases update_job_eq_some_iff.mp h with ⟨_, hw⟩
    rw [hw]
    refine awaitInv_writeJob t jobId _ hinv ?_
    intro j hj
    exact absurd hj (by simp [applyUpdate])

/-- Claim C2 (amended): the checkpoint writes establish `pending_approval`
together with `status = awaiting_approval`, and across every store
transition of the source `status = awaiting_approval` implies a non-null
`pending_approval`; but consuming an approved=true decision sets
`status = running` and records the decision WITHOUT clearing
`pending_approval` (it keeps its previous, non-null, value), so
`pending_approval` non-null does not imply `status = awaiting_approval`. -/
theorem C2_pending_approval_one_directional (s : Store) (req : ApprovalRequestM)
    (job : JobRecord) (hget : get_job s req.jobId = some job)
    (hst : job.status = "awaiting_approval") (_happ : req.approved = true) :
    ((get_job (approve_decision s req).2 req.jobId).map JobRecord.status
      = some "running")
    ∧ ((get_job (approve_decision s req).2 req.jobId).bind JobRecord.pendingApproval
      = job.pendingApproval)
    ∧ ((get_job (approve_decision s req).2 req.jobId).bind JobRecord.approvalDecision
      = some { approved := req.approved, rejectedPairs := req.rejectedPairs.getD [] })
    ∧ (∀ t t', AwaitImpliesPending t → Step t t' → AwaitImpliesPending t') := by
  have he := approve_decision_of_awaiting s req job hget hst
  have h2 : (approve_decision s req).2 = writeJob s req.jobId (approvalUpdate req) := by
    rw [he]
  rw [h2, get_job_writeJob_self, hget]
  exact ⟨rfl, by simp [applyUpdate, approvalUpdate], rfl,
    fun t t' hi hs => step_preserves_awaitInv t t' hi hs⟩

/-- The store holding the job parked at the first checkpoint. -/
def awaitingStore : Store := [("job-1", awaitingJob)]

/-- Counterexample for C2: immediately after the approval endpoint consumes
an approved=true decision, the stored job has `status = "running"` while
`pending_approval` is still non-null — the claimed biconditional fails at
this observable instant. -/
theorem C2_pending_not_cleared_cex :
    ¬((((get_job (approve_decision awaitingStore approveReqTrue).2 "job-1").bind
          JobRecord.pendingApproval).isSome = true)
        ↔ ((get_job (approve_decision awaitingStore approveReqTrue).2 "job-1").map
            JobRecord.status = some "awaiting_approval")) := by
  decide

/-- Witness for the amended C2 theorem at the concrete awaiting store. -/
theorem C2_pending_approval_one_directional_witness :
    (get_job (approve_decision awaitingStore approveReqTrue).2 "job-1").map
        JobRecord.status = some "running"
    ∧ (get_job (approve_decision awaitingStore approveReqTrue).2 "job-1").bind
        JobRecord.pendingApproval = awaitingJob.pendingApproval :=
  ⟨(C2_pending_approval_one_directional awaitingStore approveReqTrue awaitingJob
      (by decide) (by decide) (by decide)).1,
   (C2_pending_approval_one_directional awaitingStore approveReqTrue awaitingJob
      (by decide) (by decide) (by decide)).2.1⟩

theorem occ_removeFirst_self (w : Sink) (l : List Sink) :
    occ w (removeFirst l w) = occ w l - 1 := by
  induction l with
  | nil => rfl
  | cons x xs ih =>
    by_cases h : x = w
    · simp [removeFirst, occ, h]
    · simp [removeFirst, occ, h, ih]

theorem occ_removeFirst_ne (w v : Sink) (l : List Sink) (h : w ≠ v) :
    occ w (removeFirst l v) = occ w l := by
  induction l with
  | nil => rfl
  | cons x xs ih =>
    by_cases hx : x = v
    · subst hx
      simp [removeFirst, occ, Ne.symm h]
    · simp [removeFirst, occ, hx, ih]

theorem occ_eq_zero_of_not_mem (w : Sink) (l : List Sink) (h : w ∉ l) : occ w l = 0 := by
  induction l with
  | nil => rfl
  | cons x xs ih =>
    simp at h
    simp [occ, ih h.2, Ne.symm h.1]

theorem not_mem_of_occ_eq_zero (w : Sink) (l : List Sink) (h : occ w l = 0) : w ∉ l := by
  induction l with
  | nil => simp
  | cons x xs ih =>
    by_cases hx : x = w
    · simp [occ, hx] at h
    · simp [occ, hx] at h
      simp [hx, ih h]
      intro hw
      exact hx hw.symm

theorem mem_removeFirst_of_ne (w v : Sink) (l : List Sink) (h : w ≠ v) (hm : w ∈ l) :
    w ∈ removeFirst l v := by
  induction l with
  | nil => cases hm
  | cons x xs ih =>
    by_cases hx : x = v
    · subst hx
      rcases List.mem_cons.mp hm with he | hxs
      · exact absurd he h
      · simpa [removeFirst] using hxs
    · rcases List.mem_cons.mp hm with he | hxs
      · simp [removeFirst, hx, he]
      · simp [removeFirst, hx]
        exact Or.inr (by simpa using ih hxs)

theorem broadcastGo_delivers (copy : List Sink) :
    ∀ live delivered (w : Sink), w.ok = true → (w ∈ copy ∨ w ∈ delivered) →
      w ∈ (broadcastGo copy live delivered).1 := by
  induction copy with
  | nil =>
    intro live delivered w _ hm
    rcases hm with h | h
    · cases h
    · simpa [broadcastGo] using h
  | cons x rest ih =>
    intro live delivered w hok hm
    by_cases hx : x.ok
    · rw [show broadcastGo (x :: rest) live delivered
        = broadcastGo rest live (delivered ++ [x]) by simp [broadcastGo, hx]]
      refine ih live (delivered ++ [x]) w hok ?_
      rcases hm with h | h
      · rcases List.mem_cons.mp h with he | hr
        · exact Or.inr (by simp [he])
        · exact Or.inl hr
      · exact Or.inr (by simp [h])
    · rw [show broadcastGo (x :: rest) live delivered
        = broadcastGo rest (removeFirst live x) delivered by simp [broadcastGo, hx]]
      refine ih (removeFirst live x) delivered w hok ?_
      rcases hm with h | h
      · rcases List.mem_cons.mp h with he | hr
        · subst he; rw [hok] at hx; cases hx rfl
        · exact Or.inl hr
      · exact Or.inr h

theorem broadcastGo_removes (copy : List Sink) :
    ∀ live delivered (w : Sink), w.ok = false → occ w live ≤ occ w copy →
      w ∉ (broadcastGo copy live delivered).2 := by
  induction copy with
  | nil =>
    intro live delivered w _ hocc
    have : occ w live = 0 := by simpa [occ] using hocc
    simpa [broadcastGo] using not_mem_of_occ_eq_zero w live this
  | cons x rest ih =>
    intro live delivered w hok hocc
    by_cases hx : x.ok
    · rw [show broadcastGo (x :: rest) live delivered
        = broadcastGo rest live (delivered ++ [x]) by simp [broadcastGo, hx]]
      refine ih live (delivered ++ [x]) w hok ?_
      have hxw : x ≠ w := by
        intro he
        rw [he, hok] at hx
        simp at hx
      simpa [occ, hxw] using hocc
    · rw [show broadcastGo (x :: rest) live delivered
        = broadcastGo rest (removeFirst live x) delivered by simp [broadcastGo, hx]]
      refine ih (removeFirst live x) delivered w hok ?_
      by_cases hxw : w = x
      · subst hxw
        rw [occ_removeFirst_self]
        simp [occ] at hocc
        omega
      · rw [occ_removeFirst_ne w x live hxw]
        simpa [occ, Ne.symm hxw] using hocc

theorem broadcastGo_keeps (copy : List Sink) :
    ∀ live delivered (w : Sink), w.ok = true → w ∈ live →
      w ∈ (broadcastGo copy live delivered).2 := by
  induction copy with
  | nil =>
    intro live delivered w _ hm
    simpa [broadcastGo] using hm
  | cons x rest ih =>
    intro live delivered w hok hm
    by_cases hx : x.ok
    · rw [show broadcastGo (x :: rest) live delivered
        = broadcastGo rest live (delivered ++ [x]) by simp [broadcastGo, hx]]
      exact ih live (delivered ++ [x]) w hok hm
    · rw [show broadcastGo (x :: rest) live delivered
        = broadcastGo rest (removeFirst live x) delivered by simp [broadcastGo, hx]]
      refine ih (removeFirst live x) delivered w hok ?_
      refine mem_removeFirst_of_ne w x live ?_ hm
      intro he
      rw [he] at hok
      exact hx hok

/-- Claim C8: for every broadcast of a snapshot, each subscribed sink whose
send succeeds receives it and stays subscribed, while a failing sink is
removed from the subscriber list; a failure never prevents delivery to the
other sinks, and `broadcast_update` is a total function — it never raises. -/
theorem C8_broadcast_failing_sink_detached (clients : List Sink) :
    (∀ w ∈ clients, w.ok = true → w ∈ (broadcast_update clients).1)
    ∧ (∀ w ∈ clients, w.ok = false → w ∉ (broadcast_update clients).2)
    ∧ (∀ w ∈ clients, w.ok = true → w ∈ (broadcast_update clients).2) := by
  refine ⟨?_, ?_, ?_⟩
  · intro w hw hok
    exact broadcastGo_delivers clients clients [] w hok (Or.inl hw)
  · intro w _ hok
    exact broadcastGo_removes clients clients [] w hok (le_refl _)
  · intro w hw hok
    exact broadcastGo_keeps clients clients [] w hok hw

/-- Witness for C8 on a concrete client list: the two healthy sinks receive
the snapshot and stay subscribed; the failing sink is detached. -/
theorem C8_broadcast_failing_sink_detached_witness :
    ({ sid := 1, ok := true } : Sink) ∈ (broadcast_update
        [{ sid := 1, ok := true }, { sid := 2, ok := false }, { sid := 3, ok := true }]).1
    ∧ ({ sid := 2, ok := false } : Sink) ∉ (broadcast_update
        [{ sid := 1, ok := true }, { sid := 2, ok := false }, { sid := 3, ok := true }]).2
    ∧ ({ sid := 3, ok := true } : Sink) ∈ (broadcast_update
        [{ sid := 1, ok := true }, { sid := 2, ok := false }, { sid := 3, ok := true }]).2 :=
  ⟨(C8_broadcast_failing_sink_detached
      [{ sid := 1, ok := true }, { sid := 2, ok := false }, { sid := 3, ok := true }]).1
      { sid := 1, ok := true } (by decide) rfl,
   (C8_broadcast_failing_sink_detached
      [{ sid := 1, ok := true }, { sid := 2, ok := false }, { sid := 3, ok := true }]).2.1
      { sid := 2, ok := false } (by decide) rfl,
   (C8_broadcast_failing_sink_detached
      [{ sid := 1, ok := true }, { sid := 2, ok := false }, { sid := 3, ok := true }]).2.2
      { sid := 3, ok := true } (by decide) rfl⟩

namespace RefModel

/-- The heap store holding one pending job, as created by the submission
path. -/
def hs0 : HeapStore :=
  { heap := [(0, initialJob "job-1" defaultConfig)], jobs := [("job-1", 0)] }

/-- The store after the runner's first status write. -/
def hs1 : HeapStore :=
  (update_job hs0 "job-1" { status := some "running" }).getD hs0

/-- Counterexample for C7: a list obtained from `list_jobs` before an
update, read again after the update, shows the mutated record — the
returned list aliases live state. -/
theorem C7_snapshot_aliases_live_state_cex :
    ¬(readList hs1 (list_jobs hs0) = readList hs0 (list_jobs hs0)) := by
  decide

/-- Claim C7 (amended): the list returned by `list_jobs` is a fresh list of
references, so an `update_job` changes neither the reference list nor its
membership; but the records inside alias live state: reading a previously
returned list after an update equals reading a freshly obtained one — the
update is visible through the old list. -/
theorem C7_snapshot_refs_stable_contents_alias (hs hs' : HeapStore) (i : String)
    (u : JobUpdate) (h : update_job hs i u = some hs') :
    list_jobs hs' = list_jobs hs
    ∧ readList hs' (list_jobs hs) = readList hs' (list_jobs hs') := by
  cases hr : refOf hs i with
  | none => rw [update_job, hr] at h; cases h
  | some a =>
    rw [update_job, hr] at h
    have hhs : hs' = { hs with
        heap := hs.heap.map fun p => if p.1 = a then (p.1, applyUpdate p.2 u) else p } := by
      injection h with h2
      exact h2.symm
    subst hhs
    exact ⟨rfl, rfl⟩

/-- Witness for the amended C7 theorem at the concrete one-job store. -/
theorem C7_snapshot_refs_stable_contents_alias_witness :
    list_jobs hs1 = list_jobs hs0
    ∧ readList hs1 (list_jobs hs0) = readList hs1 (list_jobs hs1) :=
  C7_snapshot_refs_stable_contents_alias hs0 hs1 "job-1" { status := some "running" }
    (by decide)

end RefModel

theorem hasJob_update_progress (s : Store) (i ph : String) (st : Nat) (msg k : String) :
    hasJob (update_progress s i ph st msg) k = hasJob s k := by
  unfold update_progress
  exact hasJob_update_jobD s i k _

theorem hasJob_finishReports (jobId : String) (s : Store) (execd : List String)
    (m : Metrics) (nPairs : Nat) (k : String) :
    hasJob (finishReports jobId s execd m nPairs).1 k = hasJob s k := by
  unfold finishReports
  exact hasJob_update_progress s jobId _ 7 _ k

theorem hasJob_runMutationAndFinish (jobId : String) (env : WorkflowEnv) (s : Store)
    (execd : List String) (m : Metrics) (allUpdates : List UpdateReq) (nPairs : Nat)
    (k : String) :
    hasJob (runMutationAndFinish jobId env s execd m allUpdates nPairs).1 k
      = hasJob s k := by
  unfold runMutationAndFinish
  exact hasJob_finishReports jobId s _ _ nPairs k

theorem hasJob_phase6 (jobId : String) (cfg : JobConfig) (env : WorkflowEnv) (s : Store)
    (execd : List String) (m : Metrics) (allUpdates : List UpdateReq) (nPairs : Nat)
    (k : String) :
    hasJob (phase6 jobId cfg env s execd m allUpdates nPairs).1 k = hasJob s k := by
  unfold phase6
  dsimp only
  split
  · exact hasJob_finishReports jobId s execd m nPairs k
  · split
    · rw [hasJob_runMutationAndFinish, hasJob_update_progress]
    · split
      next heq => rw [hasJob_update_progress]
      next t heq =>
        rcases update_job_eq_some_iff.mp heq with ⟨_, hw⟩
        subst hw
        split
        · rw [hasJob_runMutationAndFinish, hasJob_writeJob, hasJob_update_progress]
        · simp only []
          rw [hasJob_writeJob, hasJob_update_progress]

theorem hasJob_phase5 (jobId : String) (cfg : JobConfig) (env : WorkflowEnv) (s : Store)
    (execd : List String) (m : Metrics) (validationUpdates : List UpdateReq)
    (pairs : List DupPair) (k : String) :
    hasJob (phase5 jobId cfg env s execd m validationUpdates pairs).1 k = hasJob s k := by
  unfold phase5
  dsimp only
  split
  · exact hasJob_phase6 jobId cfg env s execd m validationUpdates pairs.length k
  · split
    · exact hasJob_phase6 jobId cfg env s _ m _ pairs.length k
    · split
      next heq => rw [hasJob_update_progress]
      next t heq =>
        rcases update_job_eq_some_iff.mp heq with ⟨_, hw⟩
        subst hw
        split
        · rw [hasJob_phase6, hasJob_writeJob, hasJob_update_progress]
        · simp only []
          rw [hasJob_writeJob, hasJob_update_progress]

theorem hasJob_run_agent_workflow (jobId : String) (cfg : JobConfig) (env : WorkflowEnv)
    (s : Store) (k : String) :
    hasJob (run_agent_workflow jobId cfg env s).1 k = hasJob s k := by
  unfold run_agent_workflow
  cases env.connectResult with
  | error msg => exact hasJob_update_progress s jobId _ 1 _ k
  | ok u =>
    cases env.extractionResult with
    | error msg =>
      rw [hasJob_update_progress, hasJob_update_progress]
    | ok ext =>
      rw [hasJob_phase5, hasJob_update_progress, hasJob_update_progress,
        hasJob_update_progress, hasJob_update_progress, hasJob_update_progress]

/-- Claim C4: any exception escaping the workflow pipeline is caught at the
runner boundary: `run_agent_job` (a total function — nothing propagates
past it) stores `status = "failed"` with the exception message in the
job's `error` field. -/
theorem C4_runner_boundary_catches (jobId : String) (env : WorkflowEnv) (s : Store)
    (job : JobRecord) (e : String)
    (hget : get_job s jobId = some job)
    (herr : (run_agent_workflow jobId job.config env
        ((update_job s jobId runnerStartUpdate).getD s)).2.2 = Except.error e) :
    ((get_job (run_agent_job jobId env s).1 jobId).map JobRecord.status = some "failed")
    ∧ ((get_job (run_agent_job jobId env s).1 jobId).bind JobRecord.error = some e) := by
  have hhas : hasJob s jobId = true := by simp [hasJob, hget]
  have hhas1 : hasJob ((update_job s jobId runnerStartUpdate).getD s) jobId = true := by
    rw [hasJob_update_jobD]; exact hhas
  rcases hww : run_agent_workflow jobId job.config env
      ((update_job s jobId runnerStartUpdate).getD s) with ⟨s2, execd, res⟩
  have hres : res = Except.error e := by
    have := congrArg (fun x => x.2.2) hww
    simp only at this
    rw [← this]; exact herr
  subst hres
  have hhas2 : hasJob s2 jobId = true := by
    have := hasJob_run_agent_workflow jobId job.config env
      ((update_job s jobId runnerStartUpdate).getD s) jobId
    rw [hww] at this
    simp only at this
    rw [this]; exact hhas1
  have hupd2 : update_job s2 jobId (failedUpdate e)
      = some (writeJob s2 jobId (failedUpdate e)) := by
    simp [update_job, hhas2]
  rcases hg2 : get_job s2 jobId with _ | j2
  · rw [hasJob, hg2] at hhas2; cases hhas2
  · have hfinal : (run_agent_job jobId env s).1
        = writeJob s2 jobId (failedUpdate e) := by
      unfold run_agent_job
      rw [hget]
      dsimp only
      rw [hww]
      dsimp only
      rw [hupd2]
      rfl
    rw [hfinal, get_job_writeJob_self, hg2]
    constructor
    · rfl
    · rfl

/-- An environment whose Salesforce connection fails, raising
`Exception("Connection failed: boom")` out of phase 1. -/
def envConnectFail : WorkflowEnv :=
  { connectResult := Except.error "Connection failed: boom"
    extractionResult := Except.ok { totalContacts := 0, ownerCount := 0 }
    validation := { totalProcessed := 0, updates := [] }
    duplicatePairs := []
    contacts := fun _ => none
    approval1 := true
    approval2 := true
    sfSend := fun _ => { success := true, errText := "" } }

/-- The store with one freshly created job. -/
def pendingStore : Store := create_job [] "job-1" defaultConfig

/-- Witness for C4: the failed connection ends as `status = "failed"` with
the message in `error`. -/
theorem C4_runner_boundary_catches_witness :
    ((get_job (run_agent_job "job-1" envConnectFail pendingStore).1 "job-1").map
        JobRecord.status = some "failed")
    ∧ ((get_job (run_agent_job "job-1" envConnectFail pendingStore).1 "job-1").bind
        JobRecord.error = some "Connection failed: boom") :=
  C4_runner_boundary_catches "job-1" envConnectFail pendingStore
    (initialJob "job-1" defaultConfig) "Connection failed: boom" (by decide) (by rfl)

/-- First contact of the duplicate pair of the C1 run. -/
def c1Contact1 : Contact :=
  { cid := "003A1", firstName := "Ben", lastName := "Fry", email := "ben.fry@acme.com"
    phone := "555-0100", title := "VP", emailBouncedReason := "" }

/-- Second contact of the duplicate pair of the C1 run. -/
def c1Contact2 : Contact :=
  { cid := "003A2", firstName := "Benjamin", lastName := "Fry", email := "bfry@acme.com"
    phone := "", title := "", emailBouncedReason := "" }

/-- The one duplicate pair found in the C1 run. -/
def c1Pair : DupPair :=
  { contactId1 := "003A1", contactId2 := "003A2", confidence := "high"
    reasoning := "Name variants of the same person", accountName := "Acme" }

/-- Environment of the C1 run: healthy collaborators, one duplicate pair,
and a rejected (or timed-out) first checkpoint
(`wait_for_approval` returned `False`). -/
def c1Env : WorkflowEnv :=
  { connectResult := Except.ok ()
    extractionResult := Except.ok { totalContacts := 2, ownerCount := 1 }
    validation := { totalProcessed := 2, updates := [] }
    duplicatePairs := [c1Pair]
    contacts := fun i =>
      if i = "003A1" then some c1Contact1
      else if i = "003A2" then some c1Contact2 else none
    approval1 := false
    approval2 := false
    sfSend := fun _ => { success := true, errText := "" } }

/-- Claim C1 run: a job whose approval checkpoint is rejected.  After the
run, the remaining phases did not execute (in particular the Salesforce
mutation tool and report generation never ran), the workflow returned the
cancelled dict — but the stored job status is "completed" (the runner
overwrites it unconditionally), not "cancelled". -/
theorem C1_rejected_checkpoint_skips_mutation_but_status_completed :
    ("update_salesforce_contacts" ∉ (run_agent_job "job-1" c1Env pendingStore).2)
    ∧ ("generate_reports" ∉ (run_agent_job "job-1" c1Env pendingStore).2)
    ∧ ((get_job (run_agent_job "job-1" c1Env pendingStore).1 "job-1").map
        JobRecord.status = some "completed")
    ∧ (((get_job (run_agent_job "job-1" c1Env pendingStore).1 "job-1").bind
        JobRecord.results).map WorkflowResult.status = some "cancelled")
    ∧ ¬((get_job (run_agent_job "job-1" c1Env pendingStore).1 "job-1").map
        JobRecord.status = some "cancelled") := by
  decide
